import Mathlib

/-!
Shallow embedding of `src/arlet_config.py` (ARLET Configuration Manager).

Modelling decisions:
* Python `float` values are modelled as `ℚ`; every numeric literal in the
  source is an exact decimal, so no rounding behaviour is lost.
* The ambient environment (`os.getenv`) is modelled as a record `Env` of the
  eight environment variables the module reads.
* Exceptions escaping construction are modelled with `Except PyError`;
  `ValueError` carries its message string.
* The external Firebase library calls (`credentials.Certificate`,
  `firebase_admin.initialize_app`, `firestore.client`) are modelled by a
  single oracle argument `fb : Except String Backend`: either the call
  sequence yields a client handle or it raises with some message.
* A Python instance attribute that may never be assigned (`self.db` is only
  assigned inside `_init_firebase`'s branches) is modelled as
  `db : Option (Option Backend)`: `none` means the attribute was never set
  (attribute access raises `AttributeError`), `some none` means it was set
  to Python `None`, `some (some c)` means it holds a client handle.
* Log records are collected in a `log` field; `logging.basicConfig` is
  process-global filesystem plumbing with no influence on any field, so
  `_setup_logging` only sets the `logger` attribute flag.
-/

namespace Arlet

/-- Trading operation modes, from the `TradingMode` enum of the source. -/
inductive TradingMode
  | DISCRETE
  | CONTINUOUS
  | HYBRID
deriving DecidableEq, Repr

/-- Supported data sources, from the `DataSource` enum of the source. -/
inductive DataSource
  | CCXT
  | ALPACA
  | YFINANCE
  | CUSTOM_API
deriving DecidableEq, Repr

/-- A Python exception escaping construction; the source only raises
`ValueError` (directly in `_validate_parameters`, and from `float()` on a
malformed string). -/
inductive PyError
  | valueError (msg : String)
deriving DecidableEq, Repr

/-- Severity of a log record emitted through `self.logger`. -/
inductive LogLevel
  | info
  | warning
  | error
deriving DecidableEq, Repr

/-- An opaque Firestore client handle (the value of `firestore.client()`). -/
structure Backend where
  id : Nat
deriving DecidableEq, Repr

/-- The ambient environment variables read by the module via `os.getenv`;
`none` means the variable is unset. -/
structure Env where
  arlet_initial_balance : Option String := none
  firebase_project_id : Option String := none
  firebase_type : Option String := none
  firebase_private_key_id : Option String := none
  firebase_private_key : Option String := none
  firebase_client_email : Option String := none
  firebase_client_id : Option String := none
  firebase_client_cert_url : Option String := none
deriving DecidableEq, Repr

/-- Constructor arguments of the `ARLETConfig` dataclass, with the declared
field defaults of the source (decimal literals rendered as exact rationals). -/
structure Args where
  trading_mode : TradingMode := TradingMode.HYBRID
  initial_balance : ℚ := 10000
  max_position_size : ℚ := 1/10
  transaction_cost : ℚ := 1/1000
  learning_rate : ℚ := 3/10000
  discount_factor : ℚ := 99/100
  batch_size : Int := 64
  memory_size : Int := 100000
  data_source : DataSource := DataSource.CCXT
  symbols : List String := ["BTC/USDT", "ETH/USDT"]
  timeframe : String := "1h"
  lookback_window : Int := 50
  total_episodes : Int := 1000
  steps_per_episode : Int := 1000
  eval_frequency : Int := 50
  stop_loss : ℚ := 1/20
  max_drawdown : ℚ := 1/5
  risk_free_rate : ℚ := 1/50
  firebase_project_id : Option String := none
  firestore_collection : String := "arlet_trading"
  model_checkpoint_path : String := "./checkpoints/"
  log_path : String := "./logs/"
deriving DecidableEq, Repr

/-- A fully constructed `ARLETConfig` instance: the dataclass fields plus the
attributes assigned during `__post_init__` (`logger`, possibly `db`) and the
trace of log records emitted while constructing. -/
structure ARLETConfig where
  trading_mode : TradingMode
  initial_balance : ℚ
  max_position_size : ℚ
  transaction_cost : ℚ
  learning_rate : ℚ
  discount_factor : ℚ
  batch_size : Int
  memory_size : Int
  data_source : DataSource
  symbols : List String
  timeframe : String
  lookback_window : Int
  total_episodes : Int
  steps_per_episode : Int
  eval_frequency : Int
  stop_loss : ℚ
  max_drawdown : ℚ
  risk_free_rate : ℚ
  firebase_project_id : Option String
  firestore_collection : String
  model_checkpoint_path : String
  log_path : String
  logger : Bool
  db : Option (Option Backend)
  log : List (LogLevel × String)
deriving DecidableEq, Repr

/-- The instance state right after the dataclass field assignments, before
`__post_init__` runs: fields come from the constructor arguments, `logger`
and `db` are not yet set, no log records exist. -/
def initialState (a : Args) : ARLETConfig where
  trading_mode := a.trading_mode
  initial_balance := a.initial_balance
  max_position_size := a.max_position_size
  transaction_cost := a.transaction_cost
  learning_rate := a.learning_rate
  discount_factor := a.discount_factor
  batch_size := a.batch_size
  memory_size := a.memory_size
  data_source := a.data_source
  symbols := a.symbols
  timeframe := a.timeframe
  lookback_window := a.lookback_window
  total_episodes := a.total_episodes
  steps_per_episode := a.steps_per_episode
  eval_frequency := a.eval_frequency
  stop_loss := a.stop_loss
  max_drawdown := a.max_drawdown
  risk_free_rate := a.risk_free_rate
  firebase_project_id := a.firebase_project_id
  firestore_collection := a.firestore_collection
  model_checkpoint_path := a.model_checkpoint_path
  log_path := a.log_path
  logger := false
  db := none
  log := []

/-- Read a digit character as a value, `none` on a non-digit. -/
def digitVal (c : Char) : Option Nat :=
  if c.isDigit then some (c.toNat - 48) else none

/-- Accumulate a digit string into a natural number; fails on any non-digit. -/
def parseDigitsAux : List Char → Nat → Option Nat
  | [], acc => some acc
  | c :: rest, acc =>
    match digitVal c with
    | some d => parseDigitsAux rest (10 * acc + d)
    | none => none

/-- Parse a non-empty all-digit string; `none` on empty or non-digit input. -/
def parseDigits : List Char → Option Nat
  | [] => none
  | cs => parseDigitsAux cs 0

/-- Split a character list at the first dot; the second component is `none`
when no dot occurs. -/
def breakDot : List Char → List Char × Option (List Char)
  | [] => ([], none)
  | c :: cs =>
    if c = '.' then ([], some cs)
    else
      let p := breakDot cs
      (c :: p.1, p.2)

/-- Model of the Python builtin `float()` on plain decimal string literals:
an optional sign, digits, and an optional fractional part. Returns `none`
exactly when `float()` raises `ValueError`. (Scientific notation,
infinities, underscores and whitespace trimming are not modelled; no claim
depends on such inputs.) -/
def pyFloat (s : String) : Option ℚ :=
  let signed : Bool × List Char :=
    match s.toList with
    | '-' :: r => (true, r)
    | '+' :: r => (false, r)
    | r => (false, r)
  let q : Option ℚ :=
    match breakDot signed.2 with
    | (i, none) => (parseDigits i).map (fun n => (n : ℚ))
    | (i, some f) =>
      if i = [] ∧ f = [] then none
      else
        match (if i = [] then some 0 else parseDigits i),
              (if f = [] then some 0 else parseDigits f) with
        | some ip, some fp => some ((ip : ℚ) + (fp : ℚ) / (10 : ℚ) ^ f.length)
        | _, _ => none
  q.map (fun v => if signed.1 then -v else v)

/-- The `if env_balance:` block of `_validate_parameters`: a set, non-empty
`ARLET_INITIAL_BALANCE` is parsed with `float()` (raising `ValueError` on a
malformed value) and overwrites `initial_balance`; unset or empty leaves the
field alone. -/
def envBalanceOverride (env : Env) (c : ARLETConfig) : Except PyError ARLETConfig :=
  match env.arlet_initial_balance with
  | none => .ok c
  | some s =>
    if s = "" then .ok c
    else
      match pyFloat s with
      | some v => .ok { c with initial_balance := v }
      | none => .error (.valueError "could not convert string to float")

/-- `_validate_parameters`: the four range checks in source order, each
raising `ValueError` with its message, then the environment override of
`initial_balance`, then the unconditional overwrite of
`firebase_project_id` from the environment. -/
def validate_parameters (env : Env) (c : ARLETConfig) : Except PyError ARLETConfig :=
  if c.initial_balance ≤ 0 then
    .error (.valueError "Initial balance must be positive")
  else if ¬ (0 < c.max_position_size ∧ c.max_position_size ≤ 1) then
    .error (.valueError "Max position size must be between 0 and 1")
  else if c.learning_rate ≤ 0 then
    .error (.valueError "Learning rate must be positive")
  else if ¬ (0 ≤ c.discount_factor ∧ c.discount_factor ≤ 1) then
    .error (.valueError "Discount factor must be between 0 and 1")
  else
    match envBalanceOverride env c with
    | .ok c2 => .ok { c2 with firebase_project_id := env.firebase_project_id }
    | .error e => .error e

/-- `_setup_logging`: configures the process-global logging machinery and
assigns `self.logger`; it touches no configuration field. -/
def setup_logging (c : ARLETConfig) : ARLETConfig :=
  { c with logger := true }

/-- Message of the warning logged when the filtered credential record is
empty. -/
def firebaseWarnMsg : String := "Firebase credentials not found, using local mode"

/-- The credential record assembled in `_init_firebase`, as an association
list in source order, before dropping unset entries. -/
def credPairs (pid : String) (env : Env) : List (String × Option String) :=
  [("type", env.firebase_type),
   ("project_id", some pid),
   ("private_key_id", env.firebase_private_key_id),
   ("private_key", env.firebase_private_key),
   ("client_email", env.firebase_client_email),
   ("client_id", env.firebase_client_id),
   ("auth_uri", some "https://accounts.google.com/o/oauth2/auth"),
   ("token_uri", some "https://oauth2.googleapis.com/token"),
   ("auth_provider_x509_cert_url", some "https://www.googleapis.com/oauth2/v1/certs"),
   ("client_x509_cert_url", env.firebase_client_cert_url)]

/-- The credential record after `{k: v for k, v in cred_dict.items() if v is
not None}`: unset fields are dropped. -/
def cred_dict (pid : String) (env : Env) : List (String × String) :=
  (credPairs pid env).filterMap (fun p => p.2.map (fun v => (p.1, v)))

/-- `_init_firebase`: runs only when `self.firebase_project_id` is truthy
(set and non-empty). Assembles the credential record; if it is non-empty,
the Firebase call sequence (modelled by the oracle `fb`) either yields a
client handle (assigned to `self.db`, info logged) or raises (caught by the
`except` clause, error logged, `self.db` set). If the record is empty, a
warning is logged and `self.db` is set to `None`.

Modelled from the spec: the source file breaks off inside the `except`
clause at `self.db =` with the assigned value missing; per the spec
(`backend_handle` is `None` whenever the remote initialization call raises;
"log the failure and leave the handle unset") the assignment is modelled as
`self.db = None`. -/
def init_firebase (env : Env) (fb : Except String Backend) (c : ARLETConfig) : ARLETConfig :=
  match c.firebase_project_id with
  | none => c
  | some pid =>
    if pid = "" then c
    else if cred_dict pid env ≠ [] then
      match fb with
      | .ok client =>
        { c with db := some (some client),
                 log := c.log ++ [(LogLevel.info, "Firebase initialized successfully")] }
      | .error e =>
        { c with db := some none,
                 log := c.log ++ [(LogLevel.error, "Firebase initialization failed: " ++ e)] }
    else
      { c with db := some none,
               log := c.log ++ [(LogLevel.warning, firebaseWarnMsg)] }

/-- Construction of an `ARLETConfig`: field assignment from the arguments,
then `__post_init__` = `_validate_parameters`; `_setup_logging`;
`_init_firebase`. Returns the instance or the exception escaping
construction. -/
def mkARLETConfig (a : Args) (env : Env) (fb : Except String Backend) :
    Except PyError ARLETConfig :=
  match validate_parameters env (initialState a) with
  | .error e => .error e
  | .ok c => .ok (init_firebase env fb (setup_logging c))

/-- The four numeric range constraints of `_validate_parameters`, as a
predicate on the constructor arguments. -/
def validArgs (a : Args) : Prop :=
  0 < a.initial_balance ∧
  (0 < a.max_position_size ∧ a.max_position_size ≤ 1) ∧
  0 < a.learning_rate ∧
  (0 ≤ a.discount_factor ∧ a.discount_factor ≤ 1)

instance (a : Args) : Decidable (validArgs a) := by
  unfold validArgs; infer_instance

/-- A set, non-empty `ARLET_INITIAL_BALANCE` parses as a float (so the
override step cannot raise). -/
def envBalanceOk (env : Env) : Prop :=
  ∀ s, env.arlet_initial_balance = some s → s ≠ "" → (pyFloat s).isSome = true

instance (env : Env) : Decidable (envBalanceOk env) := by
  unfold envBalanceOk
  match env.arlet_initial_balance with
  | none => exact isTrue (by intro s h; cases h)
  | some s =>
    refine decidable_of_iff (s = "" ∨ (pyFloat s).isSome = true) ?_
    constructor
    · rintro (h | h) t ht hne
      · cases ht; exact absurd h hne
      · cases ht; exact h
    · intro h
      by_cases hs : s = ""
      · exact Or.inl hs
      · exact Or.inr (h s rfl hs)

/-- The value `initial_balance` holds after the environment-override step,
assuming the step did not raise. -/
def overriddenBalance (env : Env) (b : ℚ) : ℚ :=
  match env.arlet_initial_balance with
  | none => b
  | some s =>
    if s = "" then b
    else
      match pyFloat s with
      | some v => v
      | none => b

/-- The instance state after a successful `_validate_parameters`. -/
def postValidate (a : Args) (env : Env) : ARLETConfig :=
  { initialState a with
      initial_balance := overriddenBalance env a.initial_balance,
      firebase_project_id := env.firebase_project_id }

/-- All eight environment variables unset. -/
def emptyEnv : Env := {}

/-- Default construction arguments (no explicit overrides). -/
def defaultArgs : Args := {}

/-- A benign Firebase oracle: the call sequence would yield client 0. -/
def fbOk : Except String Backend := .ok ⟨0⟩

/-- Environment with `ARLET_INITIAL_BALANCE=-5` and nothing else set. -/
def envNeg5 : Env := { arlet_initial_balance := some "-5" }

/-- Environment with `ARLET_INITIAL_BALANCE=abc` (malformed) and nothing else set. -/
def envAbc : Env := { arlet_initial_balance := some "abc" }

/-- Environment with `ARLET_INITIAL_BALANCE=25000` and nothing else set. -/
def env25000 : Env := { arlet_initial_balance := some "25000" }

/-- Environment with only `FIREBASE_PROJECT_ID` set. -/
def envProj : Env := { firebase_project_id := some "demo-project" }

/-- Arguments with an invalid `initial_balance` and all other defaults. -/
def argsBad : Args := { initial_balance := -1 }

/-- Arguments passing `firebase_project_id` explicitly to the constructor. -/
def argsWithPid : Args := { firebase_project_id := some "ctor-project" }

/-- All backend credential environment variables (`FIREBASE_PROJECT_ID` and
the six credential-field variables) are unset. -/
def credsUnset (env : Env) : Prop :=
  env.firebase_project_id = none ∧ env.firebase_type = none ∧
  env.firebase_private_key_id = none ∧ env.firebase_private_key = none ∧
  env.firebase_client_email = none ∧ env.firebase_client_id = none ∧
  env.firebase_client_cert_url = none

/-- The log records of a construction attempt (none when construction raised). -/
def logOf : Except PyError ARLETConfig → List (LogLevel × String)
  | .ok c => c.log
  | .error _ => []

/-! ### Helper lemmas about the construction pipeline -/

theorem validate_ok_of (a : Args) (env : Env) (ha : validArgs a) (hb : envBalanceOk env) :
    validate_parameters env (initialState a) = .ok (postValidate a env) := by
  obtain ⟨h1, h2, h3, h4⟩ := ha
  simp only [validate_parameters, initialState]
  rw [if_neg (not_le.mpr h1), if_neg (not_not_intro h2), if_neg (not_le.mpr h3),
    if_neg (not_not_intro h4)]
  rcases henv : env.arlet_initial_balance with _ | s
  · simp [envBalanceOverride, henv, postValidate, overriddenBalance, initialState]
  · by_cases hs : s = ""
    · simp [envBalanceOverride, henv, hs, postValidate, overriddenBalance, initialState]
    · obtain ⟨v, hv⟩ := Option.isSome_iff_exists.mp (hb s henv hs)
      simp [envBalanceOverride, henv, hs, hv, postValidate, overriddenBalance, initialState]

theorem validate_error_of_invalid (a : Args) (env : Env) (h : ¬ validArgs a) :
    ∃ m, validate_parameters env (initialState a) = .error (.valueError m) ∧
      ((m = "Initial balance must be positive" ∧ a.initial_balance ≤ 0) ∨
       (m = "Max position size must be between 0 and 1" ∧
          ¬ (0 < a.max_position_size ∧ a.max_position_size ≤ 1)) ∨
       (m = "Learning rate must be positive" ∧ a.learning_rate ≤ 0) ∨
       (m = "Discount factor must be between 0 and 1" ∧
          ¬ (0 ≤ a.discount_factor ∧ a.discount_factor ≤ 1))) := by
  by_cases c1 : a.initial_balance ≤ 0
  · refine ⟨_, ?_, Or.inl ⟨rfl, c1⟩⟩
    simp only [validate_parameters, initialState]
    rw [if_pos c1]
  · by_cases c2 : 0 < a.max_position_size ∧ a.max_position_size ≤ 1
    · by_cases c3 : a.learning_rate ≤ 0
      · refine ⟨_, ?_, Or.inr (Or.inr (Or.inl ⟨rfl, c3⟩))⟩
        simp only [validate_parameters, initialState]
        rw [if_neg c1, if_neg (not_not_intro c2), if_pos c3]
      · by_cases c4 : 0 ≤ a.discount_factor ∧ a.discount_factor ≤ 1
        · exact absurd ⟨not_le.mp c1, c2, not_le.mp c3, c4⟩ h
        · refine ⟨_, ?_, Or.inr (Or.inr (Or.inr ⟨rfl, c4⟩))⟩
          simp only [validate_parameters, initialState]
          rw [if_neg c1, if_neg (not_not_intro c2), if_neg c3, if_pos c4]
    · refine ⟨_, ?_, Or.inr (Or.inl ⟨rfl, c2⟩)⟩
      simp only [validate_parameters, initialState]
      rw [if_neg c1, if_pos c2]

theorem validate_error_of_badparse (a : Args) (env : Env) (ha : validArgs a) (s : String)
    (henv : env.arlet_initial_balance = some s) (hs : s ≠ "") (hp : pyFloat s = none) :
    validate_parameters env (initialState a) =
      .error (.valueError "could not convert string to float") := by
  obtain ⟨h1, h2, h3, h4⟩ := ha
  simp only [validate_parameters, initialState]
  rw [if_neg (not_le.mpr h1), if_neg (not_not_intro h2), if_neg (not_le.mpr h3),
    if_neg (not_not_intro h4)]
  simp [envBalanceOverride, henv, hs, hp]

theorem validate_ok_char (a : Args) (env : Env) (c : ARLETConfig)
    (h : validate_parameters env (initialState a) = .ok c) :
    validArgs a ∧ envBalanceOk env ∧ c = postValidate a env := by
  by_cases hv : validArgs a
  · have hb : envBalanceOk env := by
      intro s henv hs
      rcases hp : pyFloat s with _ | v
      · rw [validate_error_of_badparse a env hv s henv hs hp] at h
        cases h
      · simp
    rw [validate_ok_of a env hv hb] at h
    injection h with h2
    exact ⟨hv, hb, h2.symm⟩
  · obtain ⟨m, hm, _⟩ := validate_error_of_invalid a env hv
    rw [hm] at h
    cases h

theorem validate_error_char (a : Args) (env : Env) (e : PyError)
    (h : validate_parameters env (initialState a) = .error e) :
    ¬ validArgs a ∨ ∃ s, env.arlet_initial_balance = some s ∧ s ≠ "" ∧ pyFloat s = none := by
  by_cases hv : validArgs a
  · by_cases hb : envBalanceOk env
    · rw [validate_ok_of a env hv hb] at h
      cases h
    · unfold envBalanceOk at hb
      push_neg at hb
      obtain ⟨s, henv, hs, hp⟩ := hb
      refine Or.inr ⟨s, henv, hs, ?_⟩
      rcases hp' : pyFloat s with _ | v
      · rfl
      · rw [hp'] at hp
        simp at hp
  · exact Or.inl hv

theorem cred_dict_mem_project (pid : String) (env : Env) :
    ("project_id", pid) ∈ cred_dict pid env := by
  apply List.mem_filterMap.mpr
  exact ⟨("project_id", some pid), by simp [credPairs], rfl⟩

theorem cred_dict_ne_nil (pid : String) (env : Env) : cred_dict pid env ≠ [] :=
  List.ne_nil_of_mem (cred_dict_mem_project pid env)

theorem init_firebase_of_none (env : Env) (fb : Except String Backend) (c : ARLETConfig)
    (h : c.firebase_project_id = none) : init_firebase env fb c = c := by
  simp [init_firebase, h]

theorem init_firebase_of_empty (env : Env) (fb : Except String Backend) (c : ARLETConfig)
    (h : c.firebase_project_id = some "") : init_firebase env fb c = c := by
  simp [init_firebase, h]

theorem init_firebase_of_err (env : Env) (e : String) (c : ARLETConfig) (pid : String)
    (hp : c.firebase_project_id = some pid) (hne : pid ≠ "") :
    init_firebase env (.error e) c =
      { c with db := some none,
               log := c.log ++ [(LogLevel.error, "Firebase initialization failed: " ++ e)] } := by
  simp [init_firebase, hp, hne, cred_dict_ne_nil]

theorem init_firebase_of_ok (env : Env) (b : Backend) (c : ARLETConfig) (pid : String)
    (hp : c.firebase_project_id = some pid) (hne : pid ≠ "") :
    init_firebase env (.ok b) c =
      { c with db := some (some b),
               log := c.log ++ [(LogLevel.info, "Firebase initialized successfully")] } := by
  simp [init_firebase, hp, hne, cred_dict_ne_nil]

theorem init_firebase_fields (env : Env) (fb : Except String Backend) (c : ARLETConfig) :
    (init_firebase env fb c).initial_balance = c.initial_balance ∧
    (init_firebase env fb c).max_position_size = c.max_position_size ∧
    (init_firebase env fb c).learning_rate = c.learning_rate ∧
    (init_firebase env fb c).discount_factor = c.discount_factor ∧
    (init_firebase env fb c).symbols = c.symbols ∧
    (init_firebase env fb c).firebase_project_id = c.firebase_project_id := by
  rcases hp : c.firebase_project_id with _ | pid
  · simp [init_firebase, hp]
  · rcases fb with e | b
    · by_cases hne : pid = ""
      · simp [init_firebase, hp, hne]
      · simp [init_firebase_of_err env e c pid hp hne, hp]

    · by_cases hne : pid = ""
      · simp [init_firebase, hp, hne]
      · simp [init_firebase_of_ok env b c pid hp hne, hp]

theorem mk_ok_of (a : Args) (env : Env) (fb : Except String Backend)
    (ha : validArgs a) (hb : envBalanceOk env) :
    mkARLETConfig a env fb = .ok (init_firebase env fb (setup_logging (postValidate a env))) := by
  unfold mkARLETConfig
  rw [validate_ok_of a env ha hb]

theorem mk_ok_char (a : Args) (env : Env) (fb : Except String Backend) (cfg : ARLETConfig)
    (h : mkARLETConfig a env fb = .ok cfg) :
    validArgs a ∧ cfg = init_firebase env fb (setup_logging (postValidate a env)) := by
  unfold mkARLETConfig at h
  rcases hv : validate_parameters env (initialState a) with e | c
  · rw [hv] at h; cases h
  · rw [hv] at h
    obtain ⟨ha, hb, hc⟩ := validate_ok_char a env c hv
    cases h
    exact ⟨ha, by rw [hc]⟩

theorem mk_error_char (a : Args) (env : Env) (fb : Except String Backend) (e : PyError)
    (h : mkARLETConfig a env fb = .error e) :
    ¬ validArgs a ∨ ∃ s, env.arlet_initial_balance = some s ∧ s ≠ "" ∧ pyFloat s = none := by
  unfold mkARLETConfig at h
  rcases hv : validate_parameters env (initialState a) with e' | c
  · rw [hv] at h
    cases h
    exact validate_error_char a env e hv
  · rw [hv] at h; cases h

theorem mk_fields (a : Args) (env : Env) (fb : Except String Backend)
    (ha : validArgs a) (hb : envBalanceOk env) :
    ∃ cfg, mkARLETConfig a env fb = .ok cfg ∧
      cfg.initial_balance = overriddenBalance env a.initial_balance ∧
      cfg.symbols = a.symbols := by
  refine ⟨_, mk_ok_of a env fb ha hb, ?_, ?_⟩
  · rw [(init_firebase_fields env fb _).1]
    simp [setup_logging, postValidate, initialState]
  · rw [(init_firebase_fields env fb _).2.2.2.2.1]
    simp [setup_logging, postValidate, initialState]

/-! ### Claim theorems -/

/-- Claim C1: every construction whose arguments violate one of the four
numeric range constraints fails with a `ValueError` (the `InvalidConfiguration`
error of the spec) whose message names the violated field and constraint, and
no instance is produced. -/
theorem C1_invalid_args_fail (a : Args) (env : Env) (fb : Except String Backend)
    (h : ¬ validArgs a) :
    ∃ m, mkARLETConfig a env fb = .error (.valueError m) ∧
      ((m = "Initial balance must be positive" ∧ a.initial_balance ≤ 0) ∨
       (m = "Max position size must be between 0 and 1" ∧
          ¬ (0 < a.max_position_size ∧ a.max_position_size ≤ 1)) ∨
       (m = "Learning rate must be positive" ∧ a.learning_rate ≤ 0) ∨
       (m = "Discount factor must be between 0 and 1" ∧
          ¬ (0 ≤ a.discount_factor ∧ a.discount_factor ≤ 1))) := by
  obtain ⟨m, hm, hd⟩ := validate_error_of_invalid a env h
  refine ⟨m, ?_, hd⟩
  unfold mkARLETConfig
  rw [hm]

/-- Witness for C1 at `initial_balance = -1`. -/
theorem C1_invalid_args_fail_witness :
    ¬ validArgs argsBad ∧
      ∃ m, mkARLETConfig argsBad emptyEnv fbOk = .error (.valueError m) := by
  have h : ¬ validArgs argsBad := by
    intro hv
    have := hv.1
    norm_num [argsBad] at this
  obtain ⟨m, hm, _⟩ := C1_invalid_args_fail argsBad emptyEnv fbOk h
  exact ⟨h, m, hm⟩

/-- Claim C2, counterexample: with `ARLET_INITIAL_BALANCE=-5` and default
arguments, construction succeeds yet the resulting `initial_balance` is `-5`,
violating the positivity constraint — so the claimed invariant fails for this
combination of arguments and environment. -/
theorem C2_counterexample :
    ∃ cfg, mkARLETConfig defaultArgs envNeg5 fbOk = .ok cfg ∧
      cfg.initial_balance = -5 ∧ cfg.initial_balance ≤ 0 := by
  have hp : pyFloat "-5" = some (-5) := by decide
  have hb : envBalanceOk envNeg5 := by
    intro s h hs
    simp only [envNeg5] at h
    cases h
    simp [hp]
  obtain ⟨cfg, hmk, hbal, _⟩ :=
    mk_fields defaultArgs envNeg5 fbOk (by norm_num [validArgs, defaultArgs]) hb
  have hv : cfg.initial_balance = -5 := by
    rw [hbal]; simp [overriddenBalance, envNeg5, hp]
  exact ⟨cfg, hmk, hv, by rw [hv]; norm_num⟩

/-- Claim C2, amended: whenever construction succeeds, the constraints on
`max_position_size`, `learning_rate` and `discount_factor` hold on the
instance, and `initial_balance > 0` also holds provided
`ARLET_INITIAL_BALANCE` was unset or empty (a set, parseable override is
written to the instance without re-validation and may violate positivity). -/
theorem C2_success_invariants (a : Args) (env : Env) (fb : Except String Backend)
    (cfg : ARLETConfig) (h : mkARLETConfig a env fb = .ok cfg) :
    (0 < cfg.max_position_size ∧ cfg.max_position_size ≤ 1) ∧
    0 < cfg.learning_rate ∧
    (0 ≤ cfg.discount_factor ∧ cfg.discount_factor ≤ 1) ∧
    ((env.arlet_initial_balance = none ∨ env.arlet_initial_balance = some "") →
      0 < cfg.initial_balance) := by
  obtain ⟨ha, hc⟩ := mk_ok_char a env fb cfg h
  subst hc
  have hf := init_firebase_fields env fb (setup_logging (postValidate a env))
  refine ⟨?_, ?_, ?_, ?_⟩
  · rw [hf.2.1]
    simpa [setup_logging, postValidate, initialState] using ha.2.1
  · rw [hf.2.2.1]
    simpa [setup_logging, postValidate, initialState] using ha.2.2.1
  · rw [hf.2.2.2.1]
    simpa [setup_logging, postValidate, initialState] using ha.2.2.2
  · intro hnone
    rw [hf.1]
    rcases hnone with h0 | h0 <;>
      simpa [setup_logging, postValidate, initialState, overriddenBalance, h0] using ha.1

/-- Witness for the amended C2 at the default arguments and empty environment. -/
theorem C2_success_invariants_witness :
    ∃ cfg, mkARLETConfig defaultArgs emptyEnv fbOk = .ok cfg ∧
      0 < cfg.max_position_size ∧ 0 < cfg.initial_balance := by
  have hb : envBalanceOk emptyEnv := by
    intro s h hs
    simp [emptyEnv] at h
  obtain ⟨cfg, hmk, _, _⟩ :=
    mk_fields defaultArgs emptyEnv fbOk (by norm_num [validArgs, defaultArgs]) hb
  obtain ⟨hm, _, _, hbal⟩ := C2_success_invariants defaultArgs emptyEnv fbOk cfg hmk
  exact ⟨cfg, hmk, hm.1, hbal (Or.inl rfl)⟩

/-- Claim C3, counterexample: with all field values valid, a malformed
`ARLET_INITIAL_BALANCE=abc` makes step 3 (`float(env_balance)`) raise a
`ValueError` out of construction, so the environment-override step can fail
construction, contrary to the claim. -/
theorem C3_counterexample :
    validArgs defaultArgs ∧
      mkARLETConfig defaultArgs envAbc fbOk =
        .error (.valueError "could not convert string to float") := by
  have ha : validArgs defaultArgs := by norm_num [validArgs, defaultArgs]
  refine ⟨ha, ?_⟩
  unfold mkARLETConfig
  rw [validate_error_of_badparse defaultArgs envAbc ha "abc" rfl (by decide) (by decide)]

/-- Claim C3, amended: construction fails only on a violation of the four
numeric field constraints or on a set, non-empty `ARLET_INITIAL_BALANCE`
value that does not parse as a float; the logging-setup and
backend-initialization steps never raise out of construction. -/
theorem C3_error_causes (a : Args) (env : Env) (fb : Except String Backend) (e : PyError)
    (h : mkARLETConfig a env fb = .error e) :
    ¬ validArgs a ∨
      ∃ s, env.arlet_initial_balance = some s ∧ s ≠ "" ∧ pyFloat s = none :=
  mk_error_char a env fb e h

/-- Witness for the amended C3 at a malformed override value. -/
theorem C3_error_causes_witness :
    ¬ validArgs defaultArgs ∨
      ∃ s, envAbc.arlet_initial_balance = some s ∧ s ≠ "" ∧ pyFloat s = none := by
  have ha : validArgs defaultArgs := by norm_num [validArgs, defaultArgs]
  have hm : mkARLETConfig defaultArgs envAbc fbOk =
      .error (.valueError "could not convert string to float") := by
    unfold mkARLETConfig
    rw [validate_error_of_badparse defaultArgs envAbc ha "abc" rfl (by decide) (by decide)]
  exact C3_error_causes defaultArgs envAbc fbOk _ hm

/-- Claim C4: a set, non-empty `ARLET_INITIAL_BALANCE` that parses as a float
overwrites `initial_balance` after the range check on the default and is not
re-validated: with otherwise valid fields construction succeeds and the
instance carries the parsed value (the witness instantiates this at `"-5"`,
yielding a successfully constructed configuration with balance `-5`). -/
theorem C4_override_not_revalidated (a : Args) (env : Env) (fb : Except String Backend)
    (s : String) (v : ℚ) (ha : validArgs a) (henv : env.arlet_initial_balance = some s)
    (hs : s ≠ "") (hp : pyFloat s = some v) :
    ∃ cfg, mkARLETConfig a env fb = .ok cfg ∧ cfg.initial_balance = v := by
  have hb : envBalanceOk env := by
    intro t ht hts
    rw [henv] at ht
    cases ht
    simp [hp]
  obtain ⟨cfg, hmk, hbal, _⟩ := mk_fields a env fb ha hb
  refine ⟨cfg, hmk, ?_⟩
  rw [hbal]
  simp [overriddenBalance, henv, hs, hp]

/-- Witness for C4 at the override value `"-5"`: construction succeeds and the
instance's balance is `-5`, which violates the positivity constraint. -/
theorem C4_override_not_revalidated_witness :
    (-5 : ℚ) ≤ 0 ∧
      ∃ cfg, mkARLETConfig defaultArgs envNeg5 fbOk = .ok cfg ∧
        cfg.initial_balance = -5 :=
  ⟨by norm_num,
   C4_override_not_revalidated defaultArgs envNeg5 fbOk "-5" (-5)
     (by norm_num [validArgs, defaultArgs]) rfl (by decide) (by decide)⟩

/-- Claim C5: when `FIREBASE_PROJECT_ID` is set (non-empty) and the backend
initialization call raises for any reason, construction still completes
without raising, `self.db` is set to `None`, and the failure is logged at
error level. -/
theorem C5_backend_failure_absorbed (a : Args) (env : Env) (e : String) (pid : String)
    (ha : validArgs a) (hb : envBalanceOk env)
    (hpid : env.firebase_project_id = some pid) (hne : pid ≠ "") :
    ∃ cfg, mkARLETConfig a env (.error e) = .ok cfg ∧ cfg.db = some none ∧
      (LogLevel.error, "Firebase initialization failed: " ++ e) ∈ cfg.log := by
  have hfp : (setup_logging (postValidate a env)).firebase_project_id = some pid := by
    simp [setup_logging, postValidate, hpid]
  have hcfg := init_firebase_of_err env e (setup_logging (postValidate a env)) pid hfp hne
  refine ⟨_, mk_ok_of a env (.error e) ha hb, ?_, ?_⟩
  · rw [hcfg]
  · rw [hcfg]
    simp [setup_logging, postValidate, initialState]

/-- Witness for C5: only `FIREBASE_PROJECT_ID` set, backend raising with a
network error. -/
theorem C5_backend_failure_absorbed_witness :
    ∃ cfg, mkARLETConfig defaultArgs envProj (.error "network unreachable") = .ok cfg ∧
      cfg.db = some none ∧
      (LogLevel.error, "Firebase initialization failed: " ++ "network unreachable") ∈ cfg.log :=
  C5_backend_failure_absorbed defaultArgs envProj "network unreachable" "demo-project"
    (by norm_num [validArgs, defaultArgs])
    (by intro s h hs; simp [envProj] at h) rfl (by decide)

/-- Claim C6, counterexample: with every backend credential variable unset,
construction completes, but the `db` attribute is never assigned at all
(`none` in the model, i.e. attribute access raises `AttributeError`), which
is not the claimed "absent (None)" attribute value (`some none`). -/
theorem C6_counterexample :
    (mkARLETConfig defaultArgs emptyEnv fbOk).map ARLETConfig.db = .ok none ∧
      (Except.ok (none : Option (Option Backend)) : Except PyError _) ≠
        .ok (some none) := by
  constructor
  · have hb : envBalanceOk emptyEnv := by
      intro s h hs
      simp [emptyEnv] at h
    rw [mk_ok_of defaultArgs emptyEnv fbOk (by norm_num [validArgs, defaultArgs]) hb]
    have hfp : (setup_logging (postValidate defaultArgs emptyEnv)).firebase_project_id = none := by
      simp [setup_logging, postValidate, emptyEnv]
    rw [Except.map, init_firebase_of_none emptyEnv fbOk _ hfp]
    simp [setup_logging, postValidate, initialState]
  · simp

/-- Claim C6, amended: with all backend credential environment variables
unset, construction completes with no exception and the `db` attribute is
never set on the instance (accessing it raises `AttributeError`), rather
than being set to `None`. -/
theorem C6_no_creds_no_db_attribute (a : Args) (env : Env) (fb : Except String Backend)
    (ha : validArgs a) (hb : envBalanceOk env) (hc : credsUnset env) :
    ∃ cfg, mkARLETConfig a env fb = .ok cfg ∧ cfg.db = none := by
  have hfp : (setup_logging (postValidate a env)).firebase_project_id = none := by
    simp [setup_logging, postValidate, hc.1]
  refine ⟨_, mk_ok_of a env fb ha hb, ?_⟩
  rw [init_firebase_of_none env fb _ hfp]
  simp [setup_logging, postValidate, initialState]

/-- Witness for the amended C6 at the default arguments and empty environment. -/
theorem C6_no_creds_no_db_attribute_witness :
    ∃ cfg, mkARLETConfig defaultArgs emptyEnv fbOk = .ok cfg ∧ cfg.db = none :=
  C6_no_creds_no_db_attribute defaultArgs emptyEnv fbOk
    (by norm_num [validArgs, defaultArgs])
    (by intro s h hs; simp [emptyEnv] at h)
    ⟨rfl, rfl, rfl, rfl, rfl, rfl, rfl⟩

/-- Claim C7: with otherwise valid fields and `ARLET_INITIAL_BALANCE=25000`,
construction succeeds with `initial_balance = 25000`, overriding the
declared default. -/
theorem C7_env_override_applied (a : Args) (env : Env) (fb : Except String Backend)
    (ha : validArgs a) (henv : env.arlet_initial_balance = some "25000") :
    ∃ cfg, mkARLETConfig a env fb = .ok cfg ∧ cfg.initial_balance = 25000 := by
  have hp : pyFloat "25000" = some 25000 := by decide
  have hb : envBalanceOk env := by
    intro t ht hts
    rw [henv] at ht
    cases ht
    simp [hp]
  obtain ⟨cfg, hmk, hbal, _⟩ := mk_fields a env fb ha hb
  refine ⟨cfg, hmk, ?_⟩
  rw [hbal]
  simp [overriddenBalance, henv, hp]

/-- Witness for C7 at the default arguments. -/
theorem C7_env_override_applied_witness :
    ∃ cfg, mkARLETConfig defaultArgs env25000 fbOk = .ok cfg ∧
      cfg.initial_balance = 25000 :=
  C7_env_override_applied defaultArgs env25000 fbOk
    (by norm_num [validArgs, defaultArgs]) rfl

/-- Claim C8: with no explicit overrides and no relevant environment
variables, construction succeeds, `initial_balance` is the declared default
`10000.0` and `symbols` is `["BTC/USDT", "ETH/USDT"]` in order. -/
theorem C8_defaults (fb : Except String Backend) :
    ∃ cfg, mkARLETConfig defaultArgs emptyEnv fb = .ok cfg ∧
      cfg.initial_balance = 10000 ∧ cfg.symbols = ["BTC/USDT", "ETH/USDT"] := by
  have hb : envBalanceOk emptyEnv := by
    intro s h hs
    simp [emptyEnv] at h
  obtain ⟨cfg, hmk, hbal, hsym⟩ :=
    mk_fields defaultArgs emptyEnv fb (by norm_num [validArgs, defaultArgs]) hb
  refine ⟨cfg, hmk, ?_, ?_⟩
  · rw [hbal]
    simp [overriddenBalance, emptyEnv, defaultArgs]
  · rw [hsym]
    simp [defaultArgs]

/-- Claim C9: when `FIREBASE_PROJECT_ID` is unset, `_init_firebase` takes no
action at all — the `db` attribute is never assigned (attribute access
raises `AttributeError`, modelled as `db = none`) — and a
`firebase_project_id` passed to the constructor is unconditionally
overwritten from the environment before backend initialization. -/
theorem C9_no_project_env_no_db (a : Args) (env : Env) (fb : Except String Backend)
    (cfg : ARLETConfig) (hpid : env.firebase_project_id = none)
    (h : mkARLETConfig a env fb = .ok cfg) :
    cfg.db = none ∧ cfg.firebase_project_id = none := by
  obtain ⟨ha, hc⟩ := mk_ok_char a env fb cfg h
  subst hc
  have hfp : (setup_logging (postValidate a env)).firebase_project_id = none := by
    simp [setup_logging, postValidate, hpid]
  rw [init_firebase_of_none env fb _ hfp]
  exact ⟨by simp [setup_logging, postValidate, initialState], hfp⟩

/-- Witness for C9: `firebase_project_id` passed as a constructor argument,
no environment variables set. -/
theorem C9_no_project_env_no_db_witness :
    ∃ cfg, mkARLETConfig argsWithPid emptyEnv fbOk = .ok cfg ∧
      cfg.db = none ∧ cfg.firebase_project_id = none := by
  have hb : envBalanceOk emptyEnv := by
    intro s h hs
    simp [emptyEnv] at h
  obtain ⟨cfg, hmk, _, _⟩ :=
    mk_fields argsWithPid emptyEnv fbOk (by norm_num [validArgs, argsWithPid]) hb
  exact ⟨cfg, hmk, C9_no_project_env_no_db argsWithPid emptyEnv fbOk cfg rfl hmk⟩

/-- Claim C10: whenever a project id is present, the filtered credential
record still contains the project id and the three fixed endpoint URLs, so
it is never empty, and consequently the empty-record branch (which would log
the "Firebase credentials not found, using local mode" warning) is
unreachable: no construction ever logs that warning. -/
theorem C10_empty_cred_branch_unreachable :
    (∀ pid env, ("project_id", pid) ∈ cred_dict pid env ∧
        ("auth_uri", "https://accounts.google.com/o/oauth2/auth") ∈ cred_dict pid env ∧
        ("token_uri", "https://oauth2.googleapis.com/token") ∈ cred_dict pid env ∧
        ("auth_provider_x509_cert_url", "https://www.googleapis.com/oauth2/v1/certs") ∈
          cred_dict pid env ∧
        cred_dict pid env ≠ []) ∧
    (∀ a env fb, (LogLevel.warning, firebaseWarnMsg) ∉ logOf (mkARLETConfig a env fb)) := by
  constructor
  · intro pid env
    refine ⟨cred_dict_mem_project pid env, ?_, ?_, ?_, cred_dict_ne_nil pid env⟩
    · exact List.mem_filterMap.mpr
        ⟨("auth_uri", some "https://accounts.google.com/o/oauth2/auth"),
          by simp [credPairs], rfl⟩
    · exact List.mem_filterMap.mpr
        ⟨("token_uri", some "https://oauth2.googleapis.com/token"),
          by simp [credPairs], rfl⟩
    · exact List.mem_filterMap.mpr
        ⟨("auth_provider_x509_cert_url", some "https://www.googleapis.com/oauth2/v1/certs"),
          by simp [credPairs], rfl⟩
  · intro a env fb
    rcases hm : mkARLETConfig a env fb with e | cfg
    · simp [logOf]
    · obtain ⟨ha, hc⟩ := mk_ok_char a env fb cfg hm
      subst hc
      simp only [logOf]
      have hXlog : (setup_logging (postValidate a env)).log = [] := by
        simp [setup_logging, postValidate, initialState]
      rcases hfp : (setup_logging (postValidate a env)).firebase_project_id with _ | pid
      · rw [init_firebase_of_none env fb _ hfp, hXlog]
        simp
      · by_cases hne : pid = ""
        · subst hne
          rw [init_firebase_of_empty env fb _ hfp, hXlog]
          simp
        · rcases fb with e | b
          · rw [init_firebase_of_err env e _ pid hfp hne, hXlog]
            simp
          · rw [init_firebase_of_ok env b _ pid hfp hne, hXlog]
            simp

end Arlet
